import Mathlib

/-!
Shallow embedding of `src/services/ai-analysis-service/main.py`:
the risk-scoring evaluator (`analyze_crypto_implementations`) and the
training stub (`train_model`), together with theorems settling the claims
about them.

Floats in the source only ever take the exact values 20.0, 70.0, 80.0,
90.0 and 0.95 under `max`, so they are modelled exactly with `Rat`.
Python's `Optional[int]` is `Option Int`; Python string membership
(`"RC4" in s`) is a substring test on the character list.
-/

/-- Python `needle == hay[:len(needle)]`: `needle` is an initial segment of `hay`. -/
def charsMatch : List Char → List Char → Bool
  | [], _ => true
  | _ :: _, [] => false
  | a :: as, b :: bs => a == b && charsMatch as bs

/-- Python `needle in hay` for character lists: `needle` occurs as a
contiguous run somewhere in `hay`. -/
def charsContain (needle : List Char) : List Char → Bool
  | [] => charsMatch needle []
  | h :: t => charsMatch needle (h :: t) || charsContain needle t

/-- Python `sub in s` on strings (case-sensitive substring test). -/
def strContains (s sub : String) : Bool :=
  charsContain sub.data s.data

/-- Input record, from the pydantic model `CryptoImplementation`. -/
structure CryptoImplementation where
  id : String
  protocol : String
  protocol_version : String
  cipher_suite : String
  key_size : Option Int
  confidence_score : Rat
deriving Repr, DecidableEq

/-- Request body, from the pydantic model `AnalysisRequest`. -/
structure AnalysisRequest where
  crypto_implementations : List CryptoImplementation
  analysis_type : String
deriving Repr, DecidableEq

/-- Per-implementation output, from the pydantic model `AnalysisResult`. -/
structure AnalysisResult where
  implementation_id : String
  analysis_type : String
  risk_score : Rat
  anomaly_detected : Bool
  confidence : Rat
  recommendations : List String
deriving Repr, DecidableEq

/-- The summary dict built at the end of `analyze_crypto_implementations`;
its four keys become fields. -/
structure Summary where
  total_analyzed : Nat
  high_risk_count : Nat
  anomalies_detected : Nat
  overall_risk_level : String
deriving Repr, DecidableEq

/-- Response body, from the pydantic model `AnalysisResponse`. -/
structure AnalysisResponse where
  results : List AnalysisResult
  summary : Summary
deriving Repr, DecidableEq

/-- Condition of the first heuristic rule:
`impl.protocol_version in ["1.0", "1.1"]`. -/
def protocolVersionWeak (v : String) : Bool :=
  v == "1.0" || v == "1.1"

/-- Condition of the second heuristic rule:
`impl.key_size and impl.key_size < 2048`.  Python truthiness: `None` and
`0` are falsy, so the rule fires only for a present, nonzero key size
below 2048. -/
def keySizeWeak : Option Int → Bool
  | none => false
  | some n => n != 0 && decide (n < 2048)

/-- Condition of the third heuristic rule:
`"RC4" in impl.cipher_suite or "MD5" in impl.cipher_suite`. -/
def cipherSuiteWeak (c : String) : Bool :=
  strContains c "RC4" || strContains c "MD5"

/-- The loop body of `analyze_crypto_implementations`: the three sequential
heuristic rules applied to one implementation.  The mutable triple
`(risk_score, anomaly_detected, recommendations)` is threaded explicitly. -/
def analyzeImpl (analysis_type : String) (impl : CryptoImplementation) :
    AnalysisResult :=
  let s0 : Rat × Bool × List String := (20, false, [])
  let s1 :=
    if protocolVersionWeak impl.protocol_version then
      ((80 : Rat), true, s0.2.2 ++ ["Upgrade to TLS 1.2 or higher"])
    else s0
  let s2 :=
    if keySizeWeak impl.key_size then
      (max s1.1 70, true, s1.2.2 ++ ["Increase key size to 2048 bits or higher"])
    else s1
  let s3 :=
    if cipherSuiteWeak impl.cipher_suite then
      (max s2.1 90, true, s2.2.2 ++ ["Replace weak cipher suite"])
    else s2
  { implementation_id := impl.id
    analysis_type := analysis_type
    risk_score := s3.1
    anomaly_detected := s3.2.1
    confidence := mkRat 95 100
    recommendations := s3.2.2 }

/-- `POST /v1/analyze`: per-item results via the loop, then the summary. -/
def analyze_crypto_implementations (request : AnalysisRequest) :
    AnalysisResponse :=
  let results :=
    request.crypto_implementations.map (analyzeImpl request.analysis_type)
  let total_implementations := results.length
  let high_risk_count := results.countP (fun r => decide (r.risk_score > 70))
  let anomalies_count := results.countP (fun r => r.anomaly_detected)
  { results := results
    summary :=
      { total_analyzed := total_implementations
        high_risk_count := high_risk_count
        anomalies_detected := anomalies_count
        overall_risk_level := if high_risk_count > 0 then "high" else "low" } }

/-- The `HTTPException` raised by the service (status code plus detail). -/
structure HTTPExceptionModel where
  status_code : Nat
  detail : String
deriving Repr, DecidableEq

/-- `POST /v1/train`: unconditionally raises a 501 `HTTPException`. -/
def train_model : Except HTTPExceptionModel Unit :=
  Except.error { status_code := 501, detail := "Model training not yet implemented" }

/-- Closed form of the loop body: each output field as a function of the
three rule conditions.  The score is decided by the strongest firing rule
because rule 2 runs first and the later rules take `max`. -/
theorem analyzeImpl_closed (ty : String) (impl : CryptoImplementation) :
    analyzeImpl ty impl =
      { implementation_id := impl.id
        analysis_type := ty
        risk_score :=
          if cipherSuiteWeak impl.cipher_suite then 90
          else if protocolVersionWeak impl.protocol_version then 80
          else if keySizeWeak impl.key_size then 70 else 20
        anomaly_detected :=
          protocolVersionWeak impl.protocol_version ||
            keySizeWeak impl.key_size || cipherSuiteWeak impl.cipher_suite
        confidence := mkRat 95 100
        recommendations :=
          (if protocolVersionWeak impl.protocol_version then
            ["Upgrade to TLS 1.2 or higher"] else []) ++
          (if keySizeWeak impl.key_size then
            ["Increase key size to 2048 bits or higher"] else []) ++
          (if cipherSuiteWeak impl.cipher_suite then
            ["Replace weak cipher suite"] else []) } := by
  unfold analyzeImpl
  cases hp : protocolVersionWeak impl.protocol_version <;>
    cases hk : keySizeWeak impl.key_size <;>
      cases hc : cipherSuiteWeak impl.cipher_suite <;>
        simp <;> decide

/-- The implementation from the spec scenario behind claim C1:
`{id:"b", protocol_version:"1.2", cipher_suite:"RC4-MD5", key_size:1024}`
(the unspecified fields filled with arbitrary values). -/
def implB : CryptoImplementation :=
  { id := "b", protocol := "TLS", protocol_version := "1.2",
    cipher_suite := "RC4-MD5", key_size := some 1024,
    confidence_score := mkRat 9 10 }

/-- Claim C1 is false on the code: on input `implB` the protocol-version
rule does not fire (the version is `"1.2"`, not `"1.0"` or `"1.1"`), so the
recommendation `"Upgrade to TLS 1.2 or higher"` is absent and only two
recommendations are produced, not three. -/
theorem C1_counterexample :
    ¬ ("Upgrade to TLS 1.2 or higher" ∈
        (analyzeImpl "risk_scoring" implB).recommendations) ∧
    (analyzeImpl "risk_scoring" implB).recommendations.length = 2 := by
  decide

/-- Claim C1, amended: on the scenario input
`{id:"b", protocol_version:"1.2", cipher_suite:"RC4-MD5", key_size:1024}`
only the key-size rule (3) and the weak-cipher rule (4) fire; the result has
`risk_score = 90` (the maximum across the firing rules) and its
recommendations are exactly the two strings of rules 3 and 4 in rule order,
whatever the analysis type, protocol and confidence score are. -/
theorem C1_thm (ty protocol : String) (conf : Rat) :
    analyzeImpl ty
      { id := "b", protocol := protocol, protocol_version := "1.2",
        cipher_suite := "RC4-MD5", key_size := some 1024,
        confidence_score := conf } =
    { implementation_id := "b", analysis_type := ty, risk_score := 90,
      anomaly_detected := true, confidence := mkRat 95 100,
      recommendations := ["Increase key size to 2048 bits or higher",
                          "Replace weak cipher suite"] } := by
  rw [analyzeImpl_closed]
  have hp : protocolVersionWeak "1.2" = false := by decide
  have hk : keySizeWeak (some 1024) = true := by decide
  have hc : cipherSuiteWeak "RC4-MD5" = true := by decide
  simp [hp, hk, hc]

/-- The key-size-zero input refuting claim C2: `key_size` is present and
`0 < 2048`, yet Python's `impl.key_size and impl.key_size < 2048` is falsy
at `0`, so the key-size rule does not fire. -/
def implZeroKey : CryptoImplementation :=
  { id := "z", protocol := "TLS", protocol_version := "1.3",
    cipher_suite := "AES256-GCM", key_size := some 0,
    confidence_score := mkRat 1 2 }

/-- Claim C2 is false on the code: `implZeroKey` has `key_size` present and
strictly below 2048, yet its result carries no recommendation at all, no
anomaly flag, and risk score 20 < 70. -/
theorem C2_counterexample :
    implZeroKey.key_size = some 0 ∧ (0 : Int) < 2048 ∧
    ¬ ("Increase key size to 2048 bits or higher" ∈
        (analyzeImpl "risk_scoring" implZeroKey).recommendations) ∧
    (analyzeImpl "risk_scoring" implZeroKey).anomaly_detected = false ∧
    (analyzeImpl "risk_scoring" implZeroKey).risk_score = 20 := by
  decide

/-- Claim C2, amended: for every implementation whose `key_size` is present,
nonzero, and strictly less than 2048, the result includes the
recommendation `"Increase key size to 2048 bits or higher"`, has
`anomaly_detected = true`, and has `risk_score ≥ 70`. -/
theorem C2_thm (ty : String) (impl : CryptoImplementation) (n : Int)
    (hpres : impl.key_size = some n) (hnz : n ≠ 0) (hlt : n < 2048) :
    "Increase key size to 2048 bits or higher" ∈
      (analyzeImpl ty impl).recommendations ∧
    (analyzeImpl ty impl).anomaly_detected = true ∧
    70 ≤ (analyzeImpl ty impl).risk_score := by
  have hk : keySizeWeak impl.key_size = true := by
    rw [hpres]
    simp [keySizeWeak, hnz, hlt]
  rw [analyzeImpl_closed]
  cases hp : protocolVersionWeak impl.protocol_version <;>
    cases hc : cipherSuiteWeak impl.cipher_suite <;>
      simp [hk] <;> decide

/-- Witness for C2_thm at a concrete input: key size 1024 is present,
nonzero and below 2048, and the conclusions hold there. -/
theorem C2_witness :
    "Increase key size to 2048 bits or higher" ∈
      (analyzeImpl "risk_scoring" implB).recommendations ∧
    (analyzeImpl "risk_scoring" implB).anomaly_detected = true ∧
    70 ≤ (analyzeImpl "risk_scoring" implB).risk_score :=
  C2_thm "risk_scoring" implB 1024 (by decide) (by decide) (by decide)

/-- Claim C3: an implementation with `key_size = some 0` is analyzed exactly
like the identical implementation with `key_size` absent — Python truthiness
makes the key-size rule skip `0` even though `0 < 2048`. -/
theorem C3_thm (ty i protocol v c : String) (conf : Rat) :
    analyzeImpl ty
      { id := i, protocol := protocol, protocol_version := v,
        cipher_suite := c, key_size := some 0, confidence_score := conf } =
    analyzeImpl ty
      { id := i, protocol := protocol, protocol_version := v,
        cipher_suite := c, key_size := none, confidence_score := conf } := by
  rw [analyzeImpl_closed, analyzeImpl_closed]
  have h : keySizeWeak (some 0) = keySizeWeak none := by decide
  simp [h]

/-- Claim C4: the final risk score is the maximum of the base value 20 and
the values of the rules that fired (80 for protocol version, 70 for key
size, 90 for weak cipher) — no later rule lowers a score set earlier. -/
theorem C4_thm (ty : String) (impl : CryptoImplementation) :
    (analyzeImpl ty impl).risk_score =
      max (max (max 20
          (if protocolVersionWeak impl.protocol_version then (80 : Rat) else 20))
        (if keySizeWeak impl.key_size then (70 : Rat) else 20))
        (if cipherSuiteWeak impl.cipher_suite then (90 : Rat) else 20) := by
  rw [analyzeImpl_closed]
  cases hp : protocolVersionWeak impl.protocol_version <;>
    cases hk : keySizeWeak impl.key_size <;>
      cases hc : cipherSuiteWeak impl.cipher_suite <;>
        simp <;> decide

/-- Claim C5: in every response, `total_analyzed` is the number of results,
`high_risk_count` the number with score strictly above 70,
`anomalies_detected` the number with the anomaly flag, and the overall
level is `"high"` exactly when some high-risk result exists; an empty
implementation list yields no results and the all-zero, `"low"` summary. -/
theorem C5_thm :
    (∀ request : AnalysisRequest,
      (analyze_crypto_implementations request).summary.total_analyzed =
        (analyze_crypto_implementations request).results.length ∧
      (analyze_crypto_implementations request).summary.high_risk_count =
        ((analyze_crypto_implementations request).results.filter
          (fun r => decide (70 < r.risk_score))).length ∧
      (analyze_crypto_implementations request).summary.anomalies_detected =
        ((analyze_crypto_implementations request).results.filter
          (fun r => r.anomaly_detected)).length ∧
      ((analyze_crypto_implementations request).summary.overall_risk_level =
          "high" ↔
        0 < (analyze_crypto_implementations request).summary.high_risk_count)) ∧
    (∀ ty : String,
      analyze_crypto_implementations
          { crypto_implementations := [], analysis_type := ty } =
        { results := []
          summary := { total_analyzed := 0, high_risk_count := 0,
                       anomalies_detected := 0,
                       overall_risk_level := "low" } }) := by
  constructor
  · intro request
    refine ⟨rfl, ?_, ?_, ?_⟩
    · exact List.countP_eq_length_filter _ _
    · exact List.countP_eq_length_filter _ _
    · have hlev : (analyze_crypto_implementations request).summary.overall_risk_level =
          if 0 < (analyze_crypto_implementations request).summary.high_risk_count
          then "high" else "low" := rfl
      rw [hlev]
      by_cases h :
        0 < (analyze_crypto_implementations request).summary.high_risk_count
      · rw [if_pos h]
        exact iff_of_true rfl h
      · rw [if_neg h]
        exact iff_of_false (by decide) h
  · intro ty
    rfl

/-- Two implementations that agree on every field except
`confidence_score`. -/
def sameExceptConfidence (a b : CryptoImplementation) : Prop :=
  a.id = b.id ∧ a.protocol = b.protocol ∧
  a.protocol_version = b.protocol_version ∧
  a.cipher_suite = b.cipher_suite ∧ a.key_size = b.key_size

/-- The loop body never reads `confidence_score`. -/
theorem analyzeImpl_ignores_confidence (ty : String)
    {a b : CryptoImplementation} (h : sameExceptConfidence a b) :
    analyzeImpl ty a = analyzeImpl ty b := by
  obtain ⟨h1, h2, h3, h4, h5⟩ := h
  rw [analyzeImpl_closed, analyzeImpl_closed, h1, h3, h4, h5]

/-- Claim C6: requests that differ only in the `confidence_score` fields of
their implementations get identical responses, and every result's
`confidence` is the constant 0.95 regardless of input. -/
theorem C6_thm :
    (∀ r1 r2 : AnalysisRequest,
      r1.analysis_type = r2.analysis_type →
      List.Forall₂ sameExceptConfidence r1.crypto_implementations
        r2.crypto_implementations →
      analyze_crypto_implementations r1 = analyze_crypto_implementations r2) ∧
    (∀ (ty : String) (impl : CryptoImplementation),
      (analyzeImpl ty impl).confidence = mkRat 95 100) := by
  constructor
  · rintro ⟨l1, ty⟩ ⟨l2, ty2⟩ hty hall
    change ty = ty2 at hty
    subst hty
    change List.Forall₂ sameExceptConfidence l1 l2 at hall
    have hmap : l1.map (analyzeImpl ty) = l2.map (analyzeImpl ty) := by
      induction hall with
      | nil => rfl
      | cons hab _ ih =>
          simp only [List.map_cons, ih]
          rw [analyzeImpl_ignores_confidence ty hab]
    simp only [analyze_crypto_implementations, hmap]
  · intro ty impl
    rfl

/-- Witness for C6_thm: the singleton request with `implB` and the same
request with a different confidence score produce the same response, and
the confidence of a concrete result is 0.95. -/
theorem C6_witness :
    analyze_crypto_implementations
        { crypto_implementations := [implB], analysis_type := "risk_scoring" } =
      analyze_crypto_implementations
        { crypto_implementations := [{ implB with confidence_score := mkRat 1 4 }],
          analysis_type := "risk_scoring" } ∧
    (analyzeImpl "risk_scoring" implB).confidence = mkRat 95 100 :=
  ⟨C6_thm.1 _ _ rfl
      (List.Forall₂.cons ⟨rfl, rfl, rfl, rfl, rfl⟩ List.Forall₂.nil),
    C6_thm.2 "risk_scoring" implB⟩

/-- Claim C7: the results list has the same length as the input list;
result i is exactly the loop body applied to input i, so its
`implementation_id` is input i's `id` and its `analysis_type` is the
request's tag, unchanged. -/
theorem C7_thm (req : AnalysisRequest) :
    ∃ hlen : (analyze_crypto_implementations req).results.length =
        req.crypto_implementations.length,
      ∀ i : Fin (analyze_crypto_implementations req).results.length,
        (analyze_crypto_implementations req).results.get i =
          analyzeImpl req.analysis_type
            (req.crypto_implementations.get (Fin.cast hlen i)) ∧
        ((analyze_crypto_implementations req).results.get i).implementation_id =
          (req.crypto_implementations.get (Fin.cast hlen i)).id ∧
        ((analyze_crypto_implementations req).results.get i).analysis_type =
          req.analysis_type := by
  have hres : (analyze_crypto_implementations req).results =
      req.crypto_implementations.map (analyzeImpl req.analysis_type) := rfl
  refine ⟨by rw [hres, List.length_map], fun i => ?_⟩
  have hget : (analyze_crypto_implementations req).results.get i =
      analyzeImpl req.analysis_type
        (req.crypto_implementations.get (Fin.cast (by rw [hres, List.length_map]) i)) := by
    simp only [List.get_eq_getElem, hres, Fin.coe_cast]
    exact List.getElem_map _
  refine ⟨hget, ?_, ?_⟩
  · rw [hget, analyzeImpl_closed]
  · rw [hget, analyzeImpl_closed]

/-- Claim C8: the training endpoint never returns a success value; it
always produces the 501 "not implemented" HTTP error. -/
theorem C8_thm :
    (∀ u : Unit, train_model ≠ Except.ok u) ∧
    ∃ e : HTTPExceptionModel, train_model = Except.error e ∧
      e.status_code = 501 := by
  refine ⟨fun u h => ?_, ⟨_, rfl, rfl⟩⟩
  exact Except.noConfusion h

/-- Claim C9: in every result, the anomaly flag, a nonempty recommendation
list and a score of at least 70 coincide, and the final score is one of
20, 70, 80, 90 (hence within 0–100). -/
theorem C9_thm (ty : String) (impl : CryptoImplementation) :
    ((analyzeImpl ty impl).anomaly_detected = true ↔
      (analyzeImpl ty impl).recommendations ≠ []) ∧
    ((analyzeImpl ty impl).anomaly_detected = true ↔
      70 ≤ (analyzeImpl ty impl).risk_score) ∧
    ((analyzeImpl ty impl).risk_score = 20 ∨
      (analyzeImpl ty impl).risk_score = 70 ∨
      (analyzeImpl ty impl).risk_score = 80 ∨
      (analyzeImpl ty impl).risk_score = 90) := by
  rw [analyzeImpl_closed]
  cases hp : protocolVersionWeak impl.protocol_version <;>
    cases hk : keySizeWeak impl.key_size <;>
      cases hc : cipherSuiteWeak impl.cipher_suite <;>
        simp <;> decide

/-- Claim C10: when only the key-size rule fires, the score is exactly 70 —
not strictly above 70 — so the item raises `anomalies_detected` but not
`high_risk_count`, and alone it leaves the overall level `"low"`. -/
theorem C10_thm (ty : String) (impl : CryptoImplementation)
    (hk : keySizeWeak impl.key_size = true)
    (hp : protocolVersionWeak impl.protocol_version = false)
    (hc : cipherSuiteWeak impl.cipher_suite = false) :
    (analyzeImpl ty impl).risk_score = 70 ∧
    ¬ (70 < (analyzeImpl ty impl).risk_score) ∧
    (analyzeImpl ty impl).anomaly_detected = true ∧
    (analyze_crypto_implementations
        { crypto_implementations := [impl], analysis_type := ty
          }).summary.high_risk_count = 0 ∧
    (analyze_crypto_implementations
        { crypto_implementations := [impl], analysis_type := ty
          }).summary.anomalies_detected = 1 ∧
    (analyze_crypto_implementations
        { crypto_implementations := [impl], analysis_type := ty
          }).summary.overall_risk_level = "low" := by
  have hone : analyzeImpl ty impl =
      { implementation_id := impl.id, analysis_type := ty, risk_score := 70,
        anomaly_detected := true, confidence := mkRat 95 100,
        recommendations := ["Increase key size to 2048 bits or higher"] } := by
    rw [analyzeImpl_closed, hk, hp, hc]
    simp
  have hdec : decide ((70 : Rat) > 70) = false := by decide
  have hsum : (analyze_crypto_implementations
      { crypto_implementations := [impl], analysis_type := ty }).summary =
      { total_analyzed := 1, high_risk_count := 0, anomalies_detected := 1,
        overall_risk_level := "low" } := by
    have hres : (analyze_crypto_implementations
        { crypto_implementations := [impl], analysis_type := ty }).summary =
        { total_analyzed := [analyzeImpl ty impl].length
          high_risk_count := List.countP
            (fun r => decide (r.risk_score > 70)) [analyzeImpl ty impl]
          anomalies_detected := List.countP
            (fun r => r.anomaly_detected) [analyzeImpl ty impl]
          overall_risk_level :=
            if List.countP (fun r => decide (r.risk_score > 70))
                [analyzeImpl ty impl] > 0
            then "high" else "low" } := rfl
    rw [hres, hone]
    simp [List.countP_cons, hdec]
  rw [hone, hsum]
  exact ⟨rfl, by simp, rfl, rfl, rfl, rfl⟩

/-- An implementation for which only the key-size rule fires, the concrete
input of the C10 witness. -/
def implKeyOnly : CryptoImplementation :=
  { id := "k", protocol := "TLS", protocol_version := "1.3",
    cipher_suite := "AES256-GCM", key_size := some 1024,
    confidence_score := mkRat 1 2 }

/-- Witness for C10_thm at the concrete input `implKeyOnly`. -/
theorem C10_witness :
    (analyzeImpl "risk_scoring" implKeyOnly).risk_score = 70 ∧
    ¬ (70 < (analyzeImpl "risk_scoring" implKeyOnly).risk_score) ∧
    (analyzeImpl "risk_scoring" implKeyOnly).anomaly_detected = true ∧
    (analyze_crypto_implementations
        { crypto_implementations := [implKeyOnly], analysis_type := "risk_scoring"
          }).summary.high_risk_count = 0 ∧
    (analyze_crypto_implementations
        { crypto_implementations := [implKeyOnly], analysis_type := "risk_scoring"
          }).summary.anomalies_detected = 1 ∧
    (analyze_crypto_implementations
        { crypto_implementations := [implKeyOnly], analysis_type := "risk_scoring"
          }).summary.overall_risk_level = "low" :=
  C10_thm "risk_scoring" implKeyOnly (by decide) (by decide) (by decide)
